import Mathlib

/-!
Shallow embedding of `oauth2freeipa/__init__.py` (class `LocalFreeIPAAuthenticator`).

The module runs external commands via `subprocess.run` and gates Jupyter session
startup on externally provisioned preconditions.  We embed:

* external process execution as a `World` function mapping an argv list to either
  a launch fault (`OSError`, carried as its message string) or a completed
  process result (`returncode`, captured `stdout`);
* each directory operation as a pure function returning the list of argv lists it
  attempted (in order) together with its Python-level outcome
  (`Except PyExc result`, where `PyExc.error` models a raised exception);
* the async provisioning gate `pre_spawn_start` as a discrete-time function: time
  advances by 1 at each `asyncio.sleep(1)`, checks are instantaneous, and the
  `asyncio.timeout(pre_spawn_timeout)` context cancels the task at absolute time
  `pre_spawn_timeout`, surfacing as a bare `TimeoutError` (no payload).
-/

namespace Oauth2freeipa

/-- Result of a completed external process (`subprocess.CompletedProcess`):
exit status and captured standard output. -/
structure CmdResult where
  returncode : Int
  stdout : String
deriving DecidableEq, Repr

/-- One argv list passed to `subprocess.run`. -/
abbrev Argv := List String

/-- The external OS: for each argv either the launch raises `OSError`
(carried as its message) or the process runs to completion. -/
abbrev World := Argv → Except String CmdResult

/-- Python exceptions that the embedded operations can raise. -/
inductive PyExc where
  | osError (msg : String)
  | calledProcessError (cmd : Argv) (returncode : Int)
  | runtimeError (msg : String)
deriving DecidableEq, Repr

/-- Configurable traits of `LocalFreeIPAAuthenticator` used by the embedded
operations (`max_add_user_retry` is declared in the source but never read). -/
structure Config where
  default_group : String
  keytab_path : String
  keytab_principal : String
  user_add_cmd : String
  pre_spawn_timeout : Nat
deriving Repr

/-- The trait defaults from the source. -/
def defaultConfig : Config :=
  { default_group := "def-sponsor00"
    keytab_path := "/etc/jupyterhub/jupyterhub.keytab"
    keytab_principal := "jupyterhub/jupyterhub"
    user_add_cmd := "ipa_create_user.py"
    pre_spawn_timeout := 30 }

/-- Argv of the credential-acquisition command
`["kinit", "-kt", keytab_path, "-p", keytab_principal]`. -/
def kinit_cmd (cfg : Config) : Argv :=
  ["kinit", "-kt", cfg.keytab_path, "-p", cfg.keytab_principal]

/-- Argv of the credential-destruction command
`["kdestroy", "-p", keytab_principal]`. -/
def kdestroy_cmd (cfg : Config) : Argv :=
  ["kdestroy", "-p", cfg.keytab_principal]

/-- Argv of the directory query `["ipa", "user-show", name]`. -/
def user_show_cmd (name : String) : Argv :=
  ["ipa", "user-show", name]

/-- The `kerberos_ticket` context manager: run `kinit` (exit status ignored, but a
launch fault propagates before the body runs), run the body, and in a `finally`
block run `kdestroy` (exit status ignored; a launch fault raised there replaces
the body's outcome, as a Python `finally` does).  The body is represented by the
trace of argvs it attempted and its outcome; the result pairs the full attempted
trace with the overall outcome. -/
def kerberos_ticket {α : Type} (w : World) (cfg : Config)
    (body : List Argv × Except PyExc α) : List Argv × Except PyExc α :=
  match w (kinit_cmd cfg) with
  | .error e => ([kinit_cmd cfg], .error (.osError e))
  | .ok _ =>
    match w (kdestroy_cmd cfg) with
    | .error e => (kinit_cmd cfg :: body.1 ++ [kdestroy_cmd cfg], .error (.osError e))
    | .ok _ => (kinit_cmd cfg :: body.1 ++ [kdestroy_cmd cfg], body.2)

/-- `system_user_exists`: inside `kerberos_ticket`, run `ipa user-show <name>`
(a launch fault propagates as `OSError`) and return `returncode == 0`. -/
def system_user_exists (w : World) (cfg : Config) (name : String) :
    List Argv × Except PyExc Bool :=
  let body : List Argv × Except PyExc Int :=
    match w (user_show_cmd name) with
    | .error e => ([user_show_cmd name], .error (.osError e))
    | .ok r => ([user_show_cmd name], .ok r.returncode)
  let run := kerberos_ticket w cfg body
  (run.1, run.2.map (fun rc => rc == 0))

/-- Whitespace characters recognized by the token splitter. -/
def isSpaceChar (c : Char) : Bool := c == ' ' || c == '\t' || c == '\n'

/-- Core of the token splitter: cut the character list at every whitespace
character, keeping empty pieces (the accumulator holds the current token
reversed). -/
def splitChars : List Char → List Char → List String
  | [], acc => [String.mk acc.reverse]
  | c :: rest, acc =>
    if isSpaceChar c then String.mk acc.reverse :: splitChars rest []
    else splitChars rest (c :: acc)

/-- `shlex.split` restricted to command strings without quoting or escape
characters (every configured `user_add_cmd` the claims exercise is of this
form): split on whitespace, dropping empty tokens. -/
def shlex_split (s : String) : List String :=
  (splitChars s.toList []).filter (fun t => t ≠ "")

/-- Rendering of an argv list inside a Python f-string message.  Python renders
`str(list)` with each element additionally quoted; we keep the bracketed,
comma-separated shape, which is what the claims about the message depend on. -/
def bracketed (cmd : Argv) : String :=
  "[" ++ String.intercalate ", " cmd ++ "]"

/-- The message of the `RuntimeError` raised when the user-add command could not
be called at all (`except OSError`):
`f"Failed to create FreeIPA user {name} - could not call {cmd}: {e}"`. -/
def add_user_launch_failure_msg (name : String) (cmd : Argv) (e : String) : String :=
  "Failed to create FreeIPA user " ++ name ++ " - could not call " ++ bracketed cmd ++ ": " ++ e

/-- Python `str` of a `subprocess.CalledProcessError`. -/
def called_process_error_str (cmd : Argv) (rc : Int) : String :=
  "Command " ++ bracketed cmd ++ " returned non-zero exit status " ++ toString rc ++ "."

/-- The message of the `RuntimeError` raised when the user-add command ran but
exited non-zero (`except subprocess.CalledProcessError`):
`f"Failed to create FreeIPA user {name} - {cmd} returned with an error: {e}"`. -/
def add_user_exit_failure_msg (name : String) (cmd : Argv) (rc : Int) : String :=
  "Failed to create FreeIPA user " ++ name ++ " - " ++ bracketed cmd ++
    " returned with an error: " ++ called_process_error_str cmd rc

/-- The argv built by `add_system_user`:
`shlex.split(self.user_add_cmd) + [user.name]`, extended with
`["--group", self.default_group]` when `default_group` is truthy (non-empty). -/
def user_add_argv (cfg : Config) (name : String) : Argv :=
  let cmd := shlex_split cfg.user_add_cmd ++ [name]
  if cfg.default_group ≠ "" then cmd ++ ["--group", cfg.default_group] else cmd

/-- `add_system_user`: build the user-add argv, run it with `check=True` inside
`kerberos_ticket`; an `OSError` is re-raised as a `RuntimeError` naming the
command and the OS fault, a `CalledProcessError` as a `RuntimeError` naming the
command and the captured failure. -/
def add_system_user (w : World) (cfg : Config) (name : String) :
    List Argv × Except PyExc Unit :=
  let cmd := user_add_argv cfg name
  let body : List Argv × Except PyExc Unit :=
    match w cmd with
    | .error e => ([cmd], .error (.osError e))
    | .ok r =>
      if r.returncode = 0 then ([cmd], .ok ())
      else ([cmd], .error (.calledProcessError cmd r.returncode))
  let run := kerberos_ticket w cfg body
  match run.2 with
  | .error (.osError e) =>
      (run.1, .error (.runtimeError (add_user_launch_failure_msg name cmd e)))
  | .error (.calledProcessError c rc) =>
      (run.1, .error (.runtimeError (add_user_exit_failure_msg name c rc)))
  | r => (run.1, r)

/-- Modelled from the spec: the pre-creation hook ("Hook A") is implemented by
the session-spawner framework superclass (`LocalAuthenticator.add_user`), which
is not part of this repository's source; per the spec it calls the creation
operation exactly when the existence query returns false, and propagates any
error unchanged. -/
def pre_creation_hook (w : World) (cfg : Config) (name : String) :
    List Argv × Except PyExc Unit :=
  match system_user_exists w cfg name with
  | (tr, .ok true) => (tr, .ok ())
  | (tr, .ok false) =>
      let r := add_system_user w cfg name
      (tr ++ r.1, r.2)
  | (tr, .error e) => (tr, .error e)

/-- The bare `TimeoutError` raised by an expired `asyncio.timeout` context: it
carries no payload at all. -/
inductive TimeoutErr where
  | mk
deriving DecidableEq, Repr

/-- One precondition check performed by the gate: a `path.exists` probe of the
home directory at a given time (with its boolean outcome), or a
`sacctmgr show user -n <name>` query at a given time (with its captured
standard output). -/
inductive Check where
  | homeCheck (t : Nat) (ok : Bool)
  | sacctCheck (t : Nat) (stdout : String)
deriving DecidableEq, Repr

/-- The warning logged for each unsatisfied home-directory poll:
`f"Home folder for {name} is missing"`. -/
def homeWarnMsg (name : String) : String :=
  "Home folder for " ++ name ++ " is missing"

/-- The warning logged for each unsatisfied accounting-record poll:
`f"Slurm account for {name} is missing"`. -/
def slurmWarnMsg (name : String) : String :=
  "Slurm account for " ++ name ++ " is missing"

/-- Observable outcome of one `pre_spawn_start` invocation: the Python-level
result (`.ok` for normal return, `.error` for the raised `TimeoutError`), the
warnings logged in order, the precondition checks performed in order, and the
discrete time at which control returned to the caller. -/
structure GateOut where
  result : Except TimeoutErr Unit
  warnings : List String
  checks : List Check
  elapsed : Nat
deriving Repr

/-- The Slurm-accounting polling loop
(`while len(subprocess.run([...]).stdout) == 0: warn; await asyncio.sleep(1)`)
running under a deadline at absolute time `T`, entered at time `t`.  `sacct u`
is the stdout the `sacctmgr` query captures at time `u`.  A sleep starting at
`u` is cancelled by the timeout context exactly when `T ≤ u + 1` (the timeout
timer was scheduled before the sleep timer, so it wins ties), and the
cancellation surfaces at absolute time `T`.  `fuel` is a structural-recursion
bound; callers pass `fuel > T - t`, which makes the `fuel = 0` case
unreachable (it is filled with the timeout branch). -/
def slurmGo (name : String) (sacct : Nat → String) (T : Nat) :
    Nat → Nat → GateOut
  | 0, t =>
    { result := .error TimeoutErr.mk
      warnings := [slurmWarnMsg name]
      checks := [Check.sacctCheck t (sacct t)]
      elapsed := T }
  | fuel + 1, t =>
    if (sacct t).length = 0 then
      if t + 1 < T then
        let r := slurmGo name sacct T fuel (t + 1)
        { result := r.result
          warnings := slurmWarnMsg name :: r.warnings
          checks := Check.sacctCheck t (sacct t) :: r.checks
          elapsed := r.elapsed }
      else
        { result := .error TimeoutErr.mk
          warnings := [slurmWarnMsg name]
          checks := [Check.sacctCheck t (sacct t)]
          elapsed := T }
    else
      { result := .ok ()
        warnings := []
        checks := [Check.sacctCheck t (sacct t)]
        elapsed := t }

/-- The home-directory polling loop
(`while not path.exists(f"/home/{name}"): warn; await asyncio.sleep(1)`)
under the same deadline, entered at time `t`, followed — when the spawner is a
`SlurmSpawner` — by the accounting loop at the same time with the same
deadline.  `home u` is the `path.exists` probe at time `u`.  Same fuel
convention as `slurmGo`. -/
def homeGo (name : String) (home : Nat → Bool) (slurm : Bool)
    (sacct : Nat → String) (T : Nat) : Nat → Nat → GateOut
  | 0, t =>
    { result := .error TimeoutErr.mk
      warnings := [homeWarnMsg name]
      checks := [Check.homeCheck t (home t)]
      elapsed := T }
  | fuel + 1, t =>
    if home t then
      if slurm then
        let r := slurmGo name sacct T (fuel + 1) t
        { result := r.result
          warnings := r.warnings
          checks := Check.homeCheck t true :: r.checks
          elapsed := r.elapsed }
      else
        { result := .ok ()
          warnings := []
          checks := [Check.homeCheck t true]
          elapsed := t }
    else
      if t + 1 < T then
        let r := homeGo name home slurm sacct T fuel (t + 1)
        { result := r.result
          warnings := homeWarnMsg name :: r.warnings
          checks := Check.homeCheck t false :: r.checks
          elapsed := r.elapsed }
      else
        { result := .error TimeoutErr.mk
          warnings := [homeWarnMsg name]
          checks := [Check.homeCheck t false]
          elapsed := T }

/-- `pre_spawn_start`: when `spawner.last_activity` is falsy (the user has never
spawned before), run both polling loops inside
`asyncio.timeout(pre_spawn_timeout)` starting at time 0; otherwise return
immediately.  `slurm` is `isinstance(spawner, SlurmSpawner)`. -/
def pre_spawn_start (cfg : Config) (last_activity : Bool) (name : String)
    (slurm : Bool) (home : Nat → Bool) (sacct : Nat → String) : GateOut :=
  if !last_activity then
    homeGo name home slurm sacct cfg.pre_spawn_timeout (cfg.pre_spawn_timeout + 1) 0
  else
    { result := .ok (), warnings := [], checks := [], elapsed := 0 }

/-- Adjacency discipline of consecutive precondition checks: successive checks
of the same loop are one poll interval apart, the first accounting check
happens at the very time the home check succeeded, and no home check ever
follows an accounting check. -/
def adjOK : Check → Check → Bool
  | Check.homeCheck t _, Check.homeCheck u _ => u = t + 1
  | Check.homeCheck t _, Check.sacctCheck u _ => u = t
  | Check.sacctCheck t _, Check.sacctCheck u _ => u = t + 1
  | Check.sacctCheck _ _, Check.homeCheck _ _ => false

/-- Default configuration with a two-second `pre_spawn_timeout`, used for
concrete gate runs. -/
def timeoutTwoConfig : Config := { defaultConfig with pre_spawn_timeout := 2 }

/-- A world where every command launches and exits 0 with empty output. -/
def okWorld : World := fun _ => Except.ok { returncode := 0, stdout := "" }

/-- A world where launching the `ipa user-show alice` query raises `OSError`
(the `ipa` executable is missing); every other command succeeds. -/
def w_missing_ipa : World := fun a =>
  if a = user_show_cmd "alice" then Except.error "No such file or directory: ipa"
  else Except.ok { returncode := 0, stdout := "" }

/-- A world where the `ipa user-show alice` query runs but exits 2 (for
example the directory is unreachable); every other command succeeds. -/
def w_show_query_fails : World := fun a =>
  if a = user_show_cmd "alice" then Except.ok { returncode := 2, stdout := "" }
  else Except.ok { returncode := 0, stdout := "" }

/-- A world where the `ipa user-show alice` query exits 1 (user absent);
every other command — in particular the user-add command — succeeds. -/
def w_show_absent : World := fun a =>
  if a = user_show_cmd "alice" then Except.ok { returncode := 1, stdout := "" }
  else Except.ok { returncode := 0, stdout := "" }

/-- A world where launching the default user-add command for `alice` raises
`OSError` (nonexistent executable); every other command succeeds. -/
def w_useradd_enoent : World := fun a =>
  if a = user_add_argv defaultConfig "alice" then Except.error "No such file or directory"
  else Except.ok { returncode := 0, stdout := "" }

/-- A world where the default user-add command for `alice` runs but exits 1;
every other command succeeds. -/
def w_useradd_fails : World := fun a =>
  if a = user_add_argv defaultConfig "alice" then Except.ok { returncode := 1, stdout := "" }
  else Except.ok { returncode := 0, stdout := "" }

/-- A world where the credential-destruction command runs but exits 1; every
other command succeeds. -/
def w_destroy_fails : World := fun a =>
  if a = kdestroy_cmd defaultConfig then Except.ok { returncode := 1, stdout := "" }
  else Except.ok { returncode := 0, stdout := "" }


theorem getLast?_cons_of_eq_some {α : Type} {l : List α} {a x : α}
    (h : l.getLast? = some x) : (a :: l).getLast? = some x := by
  cases l with
  | nil => simp at h
  | cons b t => rw [List.getLast?_cons_cons]; exact h

theorem slurmGo_checks_head (name : String) (sacct : Nat → String) (T fuel t : Nat) :
    (slurmGo name sacct T fuel t).checks.head? = some (Check.sacctCheck t (sacct t)) := by
  cases fuel with
  | zero => rfl
  | succ f =>
    simp only [slurmGo]
    split
    · split
      · rfl
      · rfl
    · rfl

theorem slurmGo_checks_sacct (name : String) (sacct : Nat → String) (T : Nat) :
    ∀ fuel t, ∀ c ∈ (slurmGo name sacct T fuel t).checks,
      ∃ u s, c = Check.sacctCheck u s ∧ t ≤ u := by
  intro fuel
  induction fuel with
  | zero =>
    intro t c hc
    simp only [slurmGo, List.mem_singleton] at hc
    exact ⟨t, sacct t, hc, Nat.le_refl t⟩
  | succ f ih =>
    intro t c hc
    simp only [slurmGo] at hc
    split at hc
    · split at hc
      · dsimp only at hc
        rcases List.mem_cons.mp hc with h | h
        · exact ⟨t, sacct t, h, Nat.le_refl t⟩
        · rcases ih (t + 1) c h with ⟨u, s, rfl, hu⟩
          exact ⟨u, s, rfl, Nat.le_of_succ_le hu⟩
      · simp only [List.mem_singleton] at hc
        exact ⟨t, sacct t, hc, Nat.le_refl t⟩
    · simp only [List.mem_singleton] at hc
      exact ⟨t, sacct t, hc, Nat.le_refl t⟩

theorem slurmGo_checks_chain (name : String) (sacct : Nat → String) (T : Nat) :
    ∀ fuel t, List.Chain' (fun a b => adjOK a b = true) (slurmGo name sacct T fuel t).checks := by
  intro fuel
  induction fuel with
  | zero => intro t; simp [slurmGo]
  | succ f ih =>
    intro t
    by_cases h0 : (sacct t).length = 0
    · by_cases h1 : t + 1 < T
      · simp only [slurmGo, h0, h1, if_true]
        refine List.chain'_cons'.mpr ⟨?_, ih (t + 1)⟩
        intro y hy
        rw [slurmGo_checks_head] at hy
        simp only [Option.mem_def, Option.some.injEq] at hy
        subst hy
        simp [adjOK]
      · simp [slurmGo, h0, h1]
    · simp [slurmGo, h0]

theorem slurmGo_elapsed_le (name : String) (sacct : Nat → String) (T : Nat) :
    ∀ fuel t, T - t < fuel → t ≤ T → (slurmGo name sacct T fuel t).elapsed ≤ T := by
  intro fuel
  induction fuel with
  | zero => intro t h _; omega
  | succ f ih =>
    intro t h ht
    by_cases h0 : (sacct t).length = 0
    · by_cases h1 : t + 1 < T
      · simp only [slurmGo, h0, h1, if_true]
        exact ih (t + 1) (by omega) (by omega)
      · simp [slurmGo, h0, h1]
    · simp only [slurmGo, h0, if_false]
      simpa using ht

theorem slurmGo_err (name : String) (sacct : Nat → String) (T : Nat) :
    ∀ fuel t, T - t < fuel →
    ∀ e, (slurmGo name sacct T fuel t).result = .error e →
      (∃ u s, (slurmGo name sacct T fuel t).checks.getLast? = some (Check.sacctCheck u s) ∧
        s.length = 0) ∧
      (slurmGo name sacct T fuel t).warnings.getLast? = some (slurmWarnMsg name) ∧
      (slurmGo name sacct T fuel t).elapsed = T := by
  intro fuel
  induction fuel with
  | zero => intro t h _ _; omega
  | succ f ih =>
    intro t h e hres
    by_cases h0 : (sacct t).length = 0
    · by_cases h1 : t + 1 < T
      · simp only [slurmGo, h0, h1, if_true] at hres ⊢
        obtain ⟨⟨u, s, hlast, hlen⟩, hwarn, helap⟩ := ih (t + 1) (by omega) e hres
        refine ⟨⟨u, s, ?_, hlen⟩, ?_, helap⟩
        · exact getLast?_cons_of_eq_some hlast
        · exact getLast?_cons_of_eq_some hwarn
      · have hrec : slurmGo name sacct T (f + 1) t =
            { result := .error TimeoutErr.mk, warnings := [slurmWarnMsg name],
              checks := [Check.sacctCheck t (sacct t)], elapsed := T } := by
          simp [slurmGo, h0, h1]
        rw [hrec]
        exact ⟨⟨t, sacct t, rfl, h0⟩, rfl, rfl⟩
    · simp [slurmGo, h0] at hres

theorem homeGo_checks_head (name : String) (home : Nat → Bool) (slurm : Bool)
    (sacct : Nat → String) (T fuel t : Nat) :
    (homeGo name home slurm sacct T fuel t).checks.head? = some (Check.homeCheck t (home t)) := by
  cases fuel with
  | zero => rfl
  | succ f =>
    by_cases hh : home t
    · by_cases hs : slurm
      · simp [homeGo, hh, hs]
      · simp [homeGo, hh, hs]
    · by_cases h1 : t + 1 < T
      · simp [homeGo, hh, h1]
      · simp [homeGo, hh, h1]

theorem homeGo_checks_chain (name : String) (home : Nat → Bool) (slurm : Bool)
    (sacct : Nat → String) (T : Nat) :
    ∀ fuel t, List.Chain' (fun a b => adjOK a b = true)
      (homeGo name home slurm sacct T fuel t).checks := by
  intro fuel
  induction fuel with
  | zero => intro t; simp [homeGo]
  | succ f ih =>
    intro t
    by_cases hh : home t
    · by_cases hs : slurm
      · simp only [homeGo, hh, hs, if_true]
        refine List.chain'_cons'.mpr ⟨?_, slurmGo_checks_chain name sacct T (f + 1) t⟩
        intro y hy
        rw [slurmGo_checks_head] at hy
        simp only [Option.mem_def, Option.some.injEq] at hy
        subst hy
        simp [adjOK]
      · simp [homeGo, hh, hs]
    · by_cases h1 : t + 1 < T
      · simp only [homeGo, hh, h1, if_true, Bool.false_eq_true, if_false]
        refine List.chain'_cons'.mpr ⟨?_, ih (t + 1)⟩
        intro y hy
        rw [homeGo_checks_head] at hy
        simp only [Option.mem_def, Option.some.injEq] at hy
        subst hy
        simp [adjOK]
      · simp [homeGo, hh, h1]

theorem homeGo_sacct_after_home (name : String) (home : Nat → Bool) (slurm : Bool)
    (sacct : Nat → String) (T : Nat) :
    ∀ fuel t, ∀ u s, Check.sacctCheck u s ∈ (homeGo name home slurm sacct T fuel t).checks →
      ∃ t0, t0 ≤ u ∧ Check.homeCheck t0 true ∈ (homeGo name home slurm sacct T fuel t).checks := by
  intro fuel
  induction fuel with
  | zero => intro t u s hc; simp [homeGo] at hc
  | succ f ih =>
    intro t u s hc
    by_cases hh : home t
    · by_cases hs : slurm
      · simp only [homeGo, hh, hs, if_true] at hc ⊢
        rcases List.mem_cons.mp hc with h | h
        · exact absurd h (by simp)
        · rcases slurmGo_checks_sacct name sacct T (f + 1) t _ h with ⟨u', s', heq, hle⟩
          obtain ⟨rfl, rfl⟩ : u = u' ∧ s = s' := by
            cases heq
            exact ⟨rfl, rfl⟩
          exact ⟨t, hle, List.mem_cons_self _ _⟩
      · simp [homeGo, hh, hs] at hc
    · by_cases h1 : t + 1 < T
      · simp only [homeGo, hh, h1, if_true, Bool.false_eq_true, if_false] at hc ⊢
        rcases List.mem_cons.mp hc with h | h
        · exact absurd h (by simp)
        · rcases ih (t + 1) u s h with ⟨t0, hle, hmem⟩
          exact ⟨t0, hle, List.mem_cons_of_mem _ hmem⟩
      · simp [homeGo, hh, h1] at hc

theorem homeGo_noslurm_checks (name : String) (home : Nat → Bool)
    (sacct : Nat → String) (T : Nat) :
    ∀ fuel t, ∀ c ∈ (homeGo name home false sacct T fuel t).checks,
      ∃ u b, c = Check.homeCheck u b := by
  intro fuel
  induction fuel with
  | zero =>
    intro t c hc
    simp only [homeGo, List.mem_singleton] at hc
    exact ⟨t, home t, hc⟩
  | succ f ih =>
    intro t c hc
    by_cases hh : home t
    · simp only [homeGo, hh, if_true, Bool.false_eq_true, if_false, List.mem_singleton] at hc
      exact ⟨t, true, hc⟩
    · by_cases h1 : t + 1 < T
      · simp only [homeGo, hh, h1, if_true, Bool.false_eq_true, if_false] at hc
        rcases List.mem_cons.mp hc with h | h
        · exact ⟨t, false, h⟩
        · exact ih (t + 1) c h
      · simp only [homeGo, hh, h1, Bool.false_eq_true, if_false, List.mem_singleton] at hc
        exact ⟨t, false, hc⟩

theorem homeGo_elapsed_le (name : String) (home : Nat → Bool) (slurm : Bool)
    (sacct : Nat → String) (T : Nat) :
    ∀ fuel t, T - t < fuel → t ≤ T →
      (homeGo name home slurm sacct T fuel t).elapsed ≤ T := by
  intro fuel
  induction fuel with
  | zero => intro t h _; omega
  | succ f ih =>
    intro t h ht
    by_cases hh : home t
    · by_cases hs : slurm
      · simp only [homeGo, hh, hs, if_true]
        exact slurmGo_elapsed_le name sacct T (f + 1) t h ht
      · simp only [homeGo, hh, hs, if_true, Bool.false_eq_true, if_false]
        simpa using ht
    · by_cases h1 : t + 1 < T
      · simp only [homeGo, hh, h1, if_true, Bool.false_eq_true, if_false]
        exact ih (t + 1) (by omega) (by omega)
      · simp [homeGo, hh, h1]

theorem homeGo_err (name : String) (home : Nat → Bool) (slurm : Bool)
    (sacct : Nat → String) (T : Nat) :
    ∀ fuel t, T - t < fuel →
    ∀ e, (homeGo name home slurm sacct T fuel t).result = .error e →
      ((∃ u, (homeGo name home slurm sacct T fuel t).checks.getLast? =
          some (Check.homeCheck u false) ∧ home u = false) ∧
        (homeGo name home slurm sacct T fuel t).warnings.getLast? = some (homeWarnMsg name) ∨
       (∃ u s, (homeGo name home slurm sacct T fuel t).checks.getLast? =
          some (Check.sacctCheck u s) ∧ s.length = 0) ∧
        (homeGo name home slurm sacct T fuel t).warnings.getLast? = some (slurmWarnMsg name)) ∧
      (homeGo name home slurm sacct T fuel t).elapsed = T := by
  intro fuel
  induction fuel with
  | zero => intro t h _ _; omega
  | succ f ih =>
    intro t h e hres
    by_cases hh : home t
    · by_cases hs : slurm
      · simp only [homeGo, hh, hs, if_true] at hres ⊢
        obtain ⟨⟨u, s, hlast, hlen⟩, hwarn, helap⟩ := slurmGo_err name sacct T (f + 1) t h e hres
        exact ⟨Or.inr ⟨⟨u, s, getLast?_cons_of_eq_some hlast, hlen⟩, hwarn⟩, helap⟩
      · simp [homeGo, hh, hs] at hres
    · by_cases h1 : t + 1 < T
      · simp only [homeGo, hh, h1, if_true, Bool.false_eq_true, if_false] at hres ⊢
        obtain ⟨hcase, helap⟩ := ih (t + 1) (by omega) e hres
        refine ⟨?_, helap⟩
        rcases hcase with ⟨⟨u, hlast, hu⟩, hwarn⟩ | ⟨⟨u, s, hlast, hlen⟩, hwarn⟩
        · exact Or.inl ⟨⟨u, getLast?_cons_of_eq_some hlast, hu⟩,
            getLast?_cons_of_eq_some hwarn⟩
        · exact Or.inr ⟨⟨u, s, getLast?_cons_of_eq_some hlast, hlen⟩,
            getLast?_cons_of_eq_some hwarn⟩
      · have hrec : homeGo name home slurm sacct T (f + 1) t =
            { result := .error TimeoutErr.mk, warnings := [homeWarnMsg name],
              checks := [Check.homeCheck t false], elapsed := T } := by
          simp [homeGo, hh, h1]
        rw [hrec]
        exact ⟨Or.inl ⟨⟨t, rfl, by simpa using hh⟩, rfl⟩, rfl⟩

theorem homeGo_never_home (name : String) (home : Nat → Bool) (slurm : Bool)
    (sacct : Nat → String) (T : Nat) (hnever : ∀ u, home u = false) :
    ∀ fuel t, T - t < fuel →
      (homeGo name home slurm sacct T fuel t).result = .error TimeoutErr.mk ∧
      (homeGo name home slurm sacct T fuel t).elapsed = T := by
  intro fuel
  induction fuel with
  | zero => intro t h; omega
  | succ f ih =>
    intro t h
    have hh : ¬ (home t = true) := by simp [hnever t]
    by_cases h1 : t + 1 < T
    · simp only [homeGo, hh, h1, if_true, Bool.false_eq_true, if_false]
      exact ih (t + 1) (by omega)
    · have hrec : homeGo name home slurm sacct T (f + 1) t =
          { result := .error TimeoutErr.mk, warnings := [homeWarnMsg name],
            checks := [Check.homeCheck t false], elapsed := T } := by
        simp [homeGo, hh, h1]
      rw [hrec]
      exact ⟨rfl, rfl⟩

/-- Claim C8: when `spawner.last_activity` is truthy (the spawner has prior
activity), `pre_spawn_start` returns immediately as a no-op — no precondition
is checked, no warning is logged, and no time passes. -/
theorem C8_prior_activity_noop (cfg : Config) (name : String) (slurm : Bool)
    (home : Nat → Bool) (sacct : Nat → String) :
    pre_spawn_start cfg true name slurm home sacct =
      { result := Except.ok (), warnings := [], checks := [], elapsed := 0 } := rfl

/-- Claim C3: if the home directory never appears, the first-spawn gate fails
with the (payload-free) timeout error at exactly `pre_spawn_timeout` time
units after invocation — in particular no earlier than the timeout, no later
than the timeout plus one poll interval, and never past the deadline. -/
theorem C3_timeout_exactly_at_deadline (cfg : Config) (name : String)
    (slurm : Bool) (home : Nat → Bool) (sacct : Nat → String)
    (hnever : ∀ u, home u = false) :
    (pre_spawn_start cfg false name slurm home sacct).result = Except.error TimeoutErr.mk ∧
    (pre_spawn_start cfg false name slurm home sacct).elapsed = cfg.pre_spawn_timeout ∧
    cfg.pre_spawn_timeout ≤ (pre_spawn_start cfg false name slurm home sacct).elapsed ∧
    (pre_spawn_start cfg false name slurm home sacct).elapsed ≤ cfg.pre_spawn_timeout + 1 := by
  have e : pre_spawn_start cfg false name slurm home sacct =
      homeGo name home slurm sacct cfg.pre_spawn_timeout (cfg.pre_spawn_timeout + 1) 0 := rfl
  rw [e]
  obtain ⟨h1, h2⟩ := homeGo_never_home name home slurm sacct cfg.pre_spawn_timeout hnever
    (cfg.pre_spawn_timeout + 1) 0 (by omega)
  exact ⟨h1, h2, by omega, by omega⟩

/-- Witness for C3 at a concrete input: timeout 2, home never present. -/
theorem C3_witness :
    (pre_spawn_start timeoutTwoConfig false "alice" false (fun _ => false) (fun _ => "")).result
      = Except.error TimeoutErr.mk ∧
    (pre_spawn_start timeoutTwoConfig false "alice" false (fun _ => false) (fun _ => "")).elapsed
      = 2 := by
  have h := C3_timeout_exactly_at_deadline timeoutTwoConfig "alice" false
    (fun _ => false) (fun _ => "") (fun _ => rfl)
  exact ⟨h.1, by simpa [timeoutTwoConfig, defaultConfig] using h.2.1⟩

/-- Claim C4: on first spawn, the accounting-record query is polled only after
the home-directory condition succeeded (and only for a Slurm spawner), all
consecutive checks obey the fixed one-unit cadence (the first accounting check
happens at the very time the home check succeeded), and the whole gate
consumes one shared deadline. -/
theorem C4_ordering_and_shared_deadline (cfg : Config) (name : String)
    (slurm : Bool) (home : Nat → Bool) (sacct : Nat → String) :
    (slurm = false → ∀ c ∈ (pre_spawn_start cfg false name slurm home sacct).checks,
      ∃ u b, c = Check.homeCheck u b) ∧
    List.Chain' (fun a b => adjOK a b = true)
      (pre_spawn_start cfg false name slurm home sacct).checks ∧
    (∀ u s, Check.sacctCheck u s ∈ (pre_spawn_start cfg false name slurm home sacct).checks →
      ∃ t0, t0 ≤ u ∧
        Check.homeCheck t0 true ∈ (pre_spawn_start cfg false name slurm home sacct).checks) ∧
    (pre_spawn_start cfg false name slurm home sacct).elapsed ≤ cfg.pre_spawn_timeout := by
  have e : pre_spawn_start cfg false name slurm home sacct =
      homeGo name home slurm sacct cfg.pre_spawn_timeout (cfg.pre_spawn_timeout + 1) 0 := rfl
  rw [e]
  refine ⟨?_, homeGo_checks_chain name home slurm sacct cfg.pre_spawn_timeout _ 0,
    homeGo_sacct_after_home name home slurm sacct cfg.pre_spawn_timeout _ 0,
    homeGo_elapsed_le name home slurm sacct cfg.pre_spawn_timeout _ 0 (by omega) (by omega)⟩
  intro hs c hc
  subst hs
  exact homeGo_noslurm_checks name home sacct cfg.pre_spawn_timeout _ 0 c hc

/-- Witness for C4 at a concrete Slurm-backed input. -/
theorem C4_witness :
    List.Chain' (fun a b => adjOK a b = true)
      (pre_spawn_start timeoutTwoConfig false "alice" true
        (fun t => decide (1 ≤ t)) (fun _ => "")).checks ∧
    (pre_spawn_start timeoutTwoConfig false "alice" true
      (fun t => decide (1 ≤ t)) (fun _ => "")).elapsed ≤ 2 := by
  have h := C4_ordering_and_shared_deadline timeoutTwoConfig "alice" true
    (fun t => decide (1 ≤ t)) (fun _ => "")
  exact ⟨h.2.1, by simpa [timeoutTwoConfig, defaultConfig] using h.2.2.2⟩

/-- Counterexample to claim C2: the raised error is the bare `TimeoutError` of
`asyncio.timeout`, which carries no payload, so its content cannot identify
which condition was last observed unsatisfied.  Two concrete runs — one whose
last unsatisfied condition is the home directory, one whose last unsatisfied
condition is the accounting record (as their distinct last-logged warnings
show) — produce literally identical error values. -/
theorem C2_counterexample :
    (pre_spawn_start timeoutTwoConfig false "alice" false (fun _ => false) (fun _ => "")).result
      = Except.error TimeoutErr.mk ∧
    (pre_spawn_start timeoutTwoConfig false "alice" true (fun _ => true) (fun _ => "")).result
      = Except.error TimeoutErr.mk ∧
    (pre_spawn_start timeoutTwoConfig false "alice" false (fun _ => false) (fun _ => "")).result
      = (pre_spawn_start timeoutTwoConfig false "alice" true (fun _ => true) (fun _ => "")).result ∧
    (pre_spawn_start timeoutTwoConfig false "alice" false (fun _ => false) (fun _ => "")).warnings.getLast?
      = some (homeWarnMsg "alice") ∧
    (pre_spawn_start timeoutTwoConfig false "alice" true (fun _ => true) (fun _ => "")).warnings.getLast?
      = some (slurmWarnMsg "alice") ∧
    homeWarnMsg "alice" ≠ slurmWarnMsg "alice" := by
  refine ⟨by rfl, by rfl, by rfl, by decide, by decide, by decide⟩

/-- Claim C2 as amended: when the deadline elapses before all applicable
conditions hold, the gate raises the payload-free timeout error at exactly the
deadline; the condition last observed unsatisfied is identified not by the
error but by the warnings logged while polling — the last check performed is
an unsatisfied probe of exactly the condition named by the last logged
warning. -/
theorem C2_amended_timeout_identified_by_log (cfg : Config) (last_activity : Bool)
    (name : String) (slurm : Bool) (home : Nat → Bool) (sacct : Nat → String)
    (e : TimeoutErr)
    (hres : (pre_spawn_start cfg last_activity name slurm home sacct).result = Except.error e) :
    e = TimeoutErr.mk ∧
    ((∃ u, (pre_spawn_start cfg last_activity name slurm home sacct).checks.getLast? =
        some (Check.homeCheck u false) ∧ home u = false) ∧
      (pre_spawn_start cfg last_activity name slurm home sacct).warnings.getLast? =
        some (homeWarnMsg name) ∨
     (∃ u s, (pre_spawn_start cfg last_activity name slurm home sacct).checks.getLast? =
        some (Check.sacctCheck u s) ∧ s.length = 0) ∧
      (pre_spawn_start cfg last_activity name slurm home sacct).warnings.getLast? =
        some (slurmWarnMsg name)) ∧
    (pre_spawn_start cfg last_activity name slurm home sacct).elapsed = cfg.pre_spawn_timeout := by
  cases last_activity with
  | true => simp [pre_spawn_start] at hres
  | false =>
    have e0 : pre_spawn_start cfg false name slurm home sacct =
        homeGo name home slurm sacct cfg.pre_spawn_timeout (cfg.pre_spawn_timeout + 1) 0 := rfl
    rw [e0] at hres ⊢
    have h := homeGo_err name home slurm sacct cfg.pre_spawn_timeout
      (cfg.pre_spawn_timeout + 1) 0 (by omega) e hres
    exact ⟨by cases e; rfl, h.1, h.2⟩

/-- Witness for the amended C2 at a concrete input (home never appears,
timeout 2). -/
theorem C2_amended_witness :
    TimeoutErr.mk = TimeoutErr.mk ∧
    ((∃ u, (pre_spawn_start timeoutTwoConfig false "alice" false (fun _ => false)
        (fun _ => "")).checks.getLast? = some (Check.homeCheck u false) ∧ false = false) ∧
      (pre_spawn_start timeoutTwoConfig false "alice" false (fun _ => false)
        (fun _ => "")).warnings.getLast? = some (homeWarnMsg "alice") ∨
     (∃ u s, (pre_spawn_start timeoutTwoConfig false "alice" false (fun _ => false)
        (fun _ => "")).checks.getLast? = some (Check.sacctCheck u s) ∧ s.length = 0) ∧
      (pre_spawn_start timeoutTwoConfig false "alice" false (fun _ => false)
        (fun _ => "")).warnings.getLast? = some (slurmWarnMsg "alice")) ∧
    (pre_spawn_start timeoutTwoConfig false "alice" false (fun _ => false)
      (fun _ => "")).elapsed = timeoutTwoConfig.pre_spawn_timeout :=
  C2_amended_timeout_identified_by_log timeoutTwoConfig false "alice" false
    (fun _ => false) (fun _ => "") TimeoutErr.mk (by rfl)

theorem add_system_user_trace (w : World) (cfg : Config) (name : String)
    (rk : CmdResult) (hk : w (kinit_cmd cfg) = Except.ok rk) :
    (add_system_user w cfg name).1 =
      [kinit_cmd cfg, user_add_argv cfg name, kdestroy_cmd cfg] := by
  cases hw : w (user_add_argv cfg name) with
  | error e =>
    cases hd : w (kdestroy_cmd cfg) with
    | error e2 => simp [add_system_user, kerberos_ticket, hk, hd, hw]
    | ok rd => simp [add_system_user, kerberos_ticket, hk, hd, hw]
  | ok r =>
    cases hd : w (kdestroy_cmd cfg) with
    | error e2 =>
      by_cases hrc : r.returncode = 0 <;>
        simp [add_system_user, kerberos_ticket, hk, hd, hw, hrc]
    | ok rd =>
      by_cases hrc : r.returncode = 0 <;>
        simp [add_system_user, kerberos_ticket, hk, hd, hw, hrc]

/-- Claim C1: whenever the credential-acquisition command ran (its
`subprocess.run` call returned), the credential-destruction command is
attempted exactly once, after the wrapped body, on every exit path — whether
the body's outcome is a normal value, an error-indicating value, or a raised
exception (the body outcome `body.2` is universally quantified over all three
shapes). -/
theorem C1_release_runs_on_every_exit_path {α : Type} (w : World) (cfg : Config)
    (body : List Argv × Except PyExc α) (rk : CmdResult)
    (hk : w (kinit_cmd cfg) = Except.ok rk) :
    (kerberos_ticket w cfg body).1 = kinit_cmd cfg :: body.1 ++ [kdestroy_cmd cfg] ∧
    (kdestroy_cmd cfg ∉ body.1 →
      List.count (kdestroy_cmd cfg) (kerberos_ticket w cfg body).1 = 1) := by
  have hne : kdestroy_cmd cfg ≠ kinit_cmd cfg := by simp [kdestroy_cmd, kinit_cmd]
  have htr : (kerberos_ticket w cfg body).1 =
      kinit_cmd cfg :: body.1 ++ [kdestroy_cmd cfg] := by
    cases hd : w (kdestroy_cmd cfg) with
    | error e => simp [kerberos_ticket, hk, hd]
    | ok rd => simp [kerberos_ticket, hk, hd]
  refine ⟨htr, fun hnb => ?_⟩
  rw [htr]
  simp [List.count_cons, List.count_append, List.count_eq_zero_of_not_mem hnb, hne]

/-- Witness for C1: a body that raises still has the destruction command run
exactly once after it. -/
theorem C1_witness :
    List.count (kdestroy_cmd defaultConfig)
      (kerberos_ticket okWorld defaultConfig
        (([user_show_cmd "alice"], Except.error (PyExc.runtimeError "boom")) :
          List Argv × Except PyExc Unit)).1 = 1 := by
  have h := C1_release_runs_on_every_exit_path okWorld defaultConfig
    (([user_show_cmd "alice"], Except.error (PyExc.runtimeError "boom")) :
      List Argv × Except PyExc Unit)
    { returncode := 0, stdout := "" } (by rfl)
  exact h.2 (by decide)

/-- Claim C10: the release step ignores the exit status of the destruction
command — as long as that command launches (any `returncode`, including
failures), `kerberos_ticket` forwards the wrapped body's outcome unchanged
(so a raised body exception still propagates), with the destruction command
attempted last. -/
theorem C10_destroy_exit_status_ignored {α : Type} (w : World) (cfg : Config)
    (body : List Argv × Except PyExc α) (rk rd : CmdResult)
    (hk : w (kinit_cmd cfg) = Except.ok rk) (hd : w (kdestroy_cmd cfg) = Except.ok rd) :
    kerberos_ticket w cfg body =
      (kinit_cmd cfg :: body.1 ++ [kdestroy_cmd cfg], body.2) := by
  simp [kerberos_ticket, hk, hd]

/-- Witness for C10: the destroy command exits 1 and the body raises; the body
exception still propagates and the destroy command was still run. -/
theorem C10_witness :
    kerberos_ticket w_destroy_fails defaultConfig
        (([user_show_cmd "alice"], Except.error (PyExc.runtimeError "boom")) :
          List Argv × Except PyExc Unit) =
      (kinit_cmd defaultConfig :: [user_show_cmd "alice"] ++ [kdestroy_cmd defaultConfig],
        Except.error (PyExc.runtimeError "boom")) :=
  C10_destroy_exit_status_ignored w_destroy_fails defaultConfig
    ([user_show_cmd "alice"], Except.error (PyExc.runtimeError "boom"))
    { returncode := 0, stdout := "" } { returncode := 1, stdout := "" } (by rfl) (by rfl)

/-- Counterexample to claim C6: the claim says the operation never raises, but
when the query executable cannot be launched at all (`subprocess.run` raises
`OSError`, e.g. `ipa` is missing), `system_user_exists` propagates the
exception instead of returning false. -/
theorem C6_counterexample :
    (system_user_exists w_missing_ipa defaultConfig "alice").2 =
      Except.error (PyExc.osError "No such file or directory: ipa") := by rfl

/-- Claim C6 as amended: provided the credential commands and the query
command launch, `system_user_exists` returns exactly `returncode == 0` — any
non-zero exit status, including query failures unrelated to user absence,
yields `false` without raising; only an OS-level launch fault makes the
operation raise. -/
theorem C6_amended_false_on_query_failure (w : World) (cfg : Config)
    (name : String) (rk rd rq : CmdResult)
    (hk : w (kinit_cmd cfg) = Except.ok rk) (hd : w (kdestroy_cmd cfg) = Except.ok rd)
    (hq : w (user_show_cmd name) = Except.ok rq) :
    (system_user_exists w cfg name).2 = Except.ok (rq.returncode == 0) ∧
    (rq.returncode ≠ 0 → (system_user_exists w cfg name).2 = Except.ok false) := by
  have h1 : (system_user_exists w cfg name).2 = Except.ok (rq.returncode == 0) := by
    simp [system_user_exists, kerberos_ticket, hk, hd, hq, Except.map]
  exact ⟨h1, fun hne => by rw [h1, beq_eq_false_iff_ne.mpr hne]⟩

/-- Witness for the amended C6: a query that runs but exits 2 yields `false`
without raising. -/
theorem C6_witness :
    (system_user_exists w_show_query_fails defaultConfig "alice").2 = Except.ok false := by
  have h := C6_amended_false_on_query_failure w_show_query_fails defaultConfig "alice"
    { returncode := 0, stdout := "" } { returncode := 0, stdout := "" }
    { returncode := 2, stdout := "" } (by rfl) (by rfl) (by rfl)
  exact h.2 (by decide)

/-- Claim C5: under a working credential environment, `add_system_user` has
exactly two failure modes — (a) the user-add command could not be launched at
all, (b) it ran but exited non-zero — both surfaced as the single error kind
`RuntimeError` whose message names the attempted command and the underlying
fault, the command is attempted exactly once (no internal retry), and every
other outcome succeeds. -/
theorem C5_create_user_two_failure_modes (w : World) (cfg : Config) (name : String)
    (rk rd : CmdResult)
    (hk : w (kinit_cmd cfg) = Except.ok rk) (hd : w (kdestroy_cmd cfg) = Except.ok rd)
    (hne1 : user_add_argv cfg name ≠ kinit_cmd cfg)
    (hne2 : user_add_argv cfg name ≠ kdestroy_cmd cfg) :
    List.count (user_add_argv cfg name) (add_system_user w cfg name).1 = 1 ∧
    (∀ exc, (add_system_user w cfg name).2 = Except.error exc →
      ∃ m, exc = PyExc.runtimeError m) ∧
    (∀ e, w (user_add_argv cfg name) = Except.error e →
      (add_system_user w cfg name).2 = Except.error (PyExc.runtimeError
        (add_user_launch_failure_msg name (user_add_argv cfg name) e)) ∧
      add_user_launch_failure_msg name (user_add_argv cfg name) e =
        ("Failed to create FreeIPA user " ++ name ++ " - could not call ") ++
          bracketed (user_add_argv cfg name) ++ (": " ++ e)) ∧
    (∀ r, w (user_add_argv cfg name) = Except.ok r → r.returncode ≠ 0 →
      (add_system_user w cfg name).2 = Except.error (PyExc.runtimeError
        (add_user_exit_failure_msg name (user_add_argv cfg name) r.returncode)) ∧
      add_user_exit_failure_msg name (user_add_argv cfg name) r.returncode =
        ("Failed to create FreeIPA user " ++ name ++ " - ") ++
          bracketed (user_add_argv cfg name) ++ (" returned with an error: " ++
            called_process_error_str (user_add_argv cfg name) r.returncode)) ∧
    (∀ r, w (user_add_argv cfg name) = Except.ok r → r.returncode = 0 →
      (add_system_user w cfg name).2 = Except.ok ()) := by
  have hevalErr : ∀ e, w (user_add_argv cfg name) = Except.error e →
      (add_system_user w cfg name).2 = Except.error (PyExc.runtimeError
        (add_user_launch_failure_msg name (user_add_argv cfg name) e)) := by
    intro e hw
    simp [add_system_user, kerberos_ticket, hk, hd, hw]
  have hevalRC : ∀ r, w (user_add_argv cfg name) = Except.ok r → r.returncode ≠ 0 →
      (add_system_user w cfg name).2 = Except.error (PyExc.runtimeError
        (add_user_exit_failure_msg name (user_add_argv cfg name) r.returncode)) := by
    intro r hw hrc
    simp [add_system_user, kerberos_ticket, hk, hd, hw, hrc]
  have hevalOK : ∀ r, w (user_add_argv cfg name) = Except.ok r → r.returncode = 0 →
      (add_system_user w cfg name).2 = Except.ok () := by
    intro r hw hrc
    simp [add_system_user, kerberos_ticket, hk, hd, hw, hrc]
  refine ⟨?_, ?_, ?_, ?_, hevalOK⟩
  · rw [add_system_user_trace w cfg name rk hk]
    simp [List.count_cons, hne1, hne2]
  · intro exc hexc
    cases hw : w (user_add_argv cfg name) with
    | error e =>
      rw [hevalErr e hw] at hexc
      injection hexc with h
      exact ⟨_, h.symm⟩
    | ok r =>
      by_cases hrc : r.returncode = 0
      · rw [hevalOK r hw hrc] at hexc
        cases hexc
      · rw [hevalRC r hw hrc] at hexc
        injection hexc with h
        exact ⟨_, h.symm⟩
  · intro e hw
    refine ⟨hevalErr e hw, ?_⟩
    simp [add_user_launch_failure_msg, String.append_assoc]
  · intro r hw hrc
    refine ⟨hevalRC r hw hrc, ?_⟩
    simp [add_user_exit_failure_msg, String.append_assoc]

/-- Witness for C5: the default user-add command cannot be launched; the
operation fails with a `RuntimeError` naming the attempted command and the OS
fault, after exactly one attempt. -/
theorem C5_witness :
    (add_system_user w_useradd_enoent defaultConfig "alice").2 =
      Except.error (PyExc.runtimeError (add_user_launch_failure_msg "alice"
        (user_add_argv defaultConfig "alice") "No such file or directory")) ∧
    List.count (user_add_argv defaultConfig "alice")
      (add_system_user w_useradd_enoent defaultConfig "alice").1 = 1 := by
  have h := C5_create_user_two_failure_modes w_useradd_enoent defaultConfig "alice"
    { returncode := 0, stdout := "" } { returncode := 0, stdout := "" }
    (by rfl) (by rfl) (by decide) (by decide)
  exact ⟨(h.2.2.1 "No such file or directory" (by rfl)).1, h.1⟩

/-- Claim C9: the directory-mutate command executed by `add_system_user` is
exactly the tokens of the configured command string, then the identity name,
then `--group <default_group>` appended iff `default_group` is non-empty, in
that order. -/
theorem C9_mutate_command_template (w : World) (cfg : Config) (name : String)
    (rk : CmdResult) (hk : w (kinit_cmd cfg) = Except.ok rk) :
    (add_system_user w cfg name).1 =
      [kinit_cmd cfg, user_add_argv cfg name, kdestroy_cmd cfg] ∧
    user_add_argv cfg name =
      shlex_split cfg.user_add_cmd ++ [name] ++
        (if cfg.default_group ≠ "" then ["--group", cfg.default_group] else []) ∧
    (cfg.default_group = "" →
      user_add_argv cfg name = shlex_split cfg.user_add_cmd ++ [name]) := by
  refine ⟨add_system_user_trace w cfg name rk hk, ?_, ?_⟩
  · simp only [user_add_argv]
    split
    · simp
    · simp
  · intro hg
    simp [user_add_argv, hg]

/-- Witness for C9 at the default configuration. -/
theorem C9_witness :
    user_add_argv defaultConfig "alice" =
      ["ipa_create_user.py", "alice", "--group", "def-sponsor00"] ∧
    (add_system_user okWorld defaultConfig "alice").1 =
      [kinit_cmd defaultConfig, user_add_argv defaultConfig "alice",
        kdestroy_cmd defaultConfig] := by
  have h := C9_mutate_command_template okWorld defaultConfig "alice"
    { returncode := 0, stdout := "" } (by rfl)
  exact ⟨by decide, h.1⟩

/-- Claim C7 (hook composition modelled from the spec): two sequential
invocations of the pre-creation hook for the same identity — the first seeing
the user absent, the second seeing the user present — perform exactly one
user-add command in total: one in the first call, none in the second. -/
theorem C7_precreation_idempotent (w1 w2 : World) (cfg : Config) (name : String)
    (rk1 rd1 rq1 rk2 rd2 rq2 : CmdResult)
    (h1k : w1 (kinit_cmd cfg) = Except.ok rk1) (h1d : w1 (kdestroy_cmd cfg) = Except.ok rd1)
    (h1q : w1 (user_show_cmd name) = Except.ok rq1) (habsent : rq1.returncode ≠ 0)
    (h2k : w2 (kinit_cmd cfg) = Except.ok rk2) (h2d : w2 (kdestroy_cmd cfg) = Except.ok rd2)
    (h2q : w2 (user_show_cmd name) = Except.ok rq2) (hpresent : rq2.returncode = 0)
    (hne1 : user_add_argv cfg name ≠ kinit_cmd cfg)
    (hne2 : user_add_argv cfg name ≠ kdestroy_cmd cfg)
    (hne3 : user_add_argv cfg name ≠ user_show_cmd name) :
    List.count (user_add_argv cfg name) (pre_creation_hook w1 cfg name).1 = 1 ∧
    List.count (user_add_argv cfg name) (pre_creation_hook w2 cfg name).1 = 0 := by
  have hb1 : (rq1.returncode == 0) = false := beq_eq_false_iff_ne.mpr habsent
  have hb2 : (rq2.returncode == 0) = true := beq_iff_eq.mpr hpresent
  have hs1 : system_user_exists w1 cfg name =
      ([kinit_cmd cfg, user_show_cmd name, kdestroy_cmd cfg], Except.ok false) := by
    simp [system_user_exists, kerberos_ticket, h1k, h1d, h1q, Except.map, hb1]
  have hs2 : system_user_exists w2 cfg name =
      ([kinit_cmd cfg, user_show_cmd name, kdestroy_cmd cfg], Except.ok true) := by
    simp [system_user_exists, kerberos_ticket, h2k, h2d, h2q, Except.map, hb2]
  have hhook1 : (pre_creation_hook w1 cfg name).1 =
      [kinit_cmd cfg, user_show_cmd name, kdestroy_cmd cfg] ++
        (add_system_user w1 cfg name).1 := by
    simp [pre_creation_hook, hs1]
  have hhook2 : (pre_creation_hook w2 cfg name).1 =
      [kinit_cmd cfg, user_show_cmd name, kdestroy_cmd cfg] := by
    simp [pre_creation_hook, hs2]
  constructor
  · rw [hhook1, add_system_user_trace w1 cfg name rk1 h1k]
    simp [List.count_append, List.count_cons, hne1, hne2, hne3]
  · rw [hhook2]
    simp [List.count_cons, hne1, hne2, hne3]

/-- Witness for C7: first call sees the user absent and creates it; second
call sees it present and does not. -/
theorem C7_witness :
    List.count (user_add_argv defaultConfig "alice")
      (pre_creation_hook w_show_absent defaultConfig "alice").1 = 1 ∧
    List.count (user_add_argv defaultConfig "alice")
      (pre_creation_hook okWorld defaultConfig "alice").1 = 0 := by
  have h := C7_precreation_idempotent w_show_absent okWorld defaultConfig "alice"
    { returncode := 0, stdout := "" } { returncode := 0, stdout := "" }
    { returncode := 1, stdout := "" } { returncode := 0, stdout := "" }
    { returncode := 0, stdout := "" } { returncode := 0, stdout := "" }
    (by rfl) (by rfl) (by rfl) (by decide) (by rfl) (by rfl) (by rfl) (by rfl)
    (by decide) (by decide) (by decide)
  exact h

end Oauth2freeipa
